import Mathlib

/-!
Verification development for the rule-based chatbot in this repository
(`src/Chatbot/Demo1/bot.py` and `src/Chatbot/Demo2/chatbot.py`).

The Python code is shallowly embedded: pure functions become Lean
functions, float scores become exact rationals (every score the code can
produce is a small dyadic rational, on which Python float arithmetic and
comparison are exact), Python exceptions become `Except PyErr`, and the
Python `re` module — external to the repository — is abstracted as a
`Pattern` that is either a compiled search function (the semantics of
`re.search` with `re.IGNORECASE` for that pattern string) or `malformed`
(a pattern on which `re.compile`/`re.search` raises `re.error`).
-/

namespace Chatbot

/-- Python exceptions that the embedded code can raise. -/
inductive PyErr where
  | reError
  | typeError
  | attributeError
  | indexError
  | syntaxError
  | zeroDivisionError
deriving DecidableEq, Repr

/-- A Python `re.Match` object: the whole matched text (`group(0)`), the
captured groups `group(1), ..., group(n)` (`none` when the group did not
participate in the match), and `lastindex` (the index of the last matched
group, `None` when the pattern has no matching group). -/
structure RMatch where
  group0 : String
  groups : List (Option String)
  lastindex : Option Nat
deriving DecidableEq, Repr

/-- Model of `match.group(i)`: group 0 is the whole match; group `i ≥ 1` is looked
up among the captured groups, raising `IndexError` when the pattern has no
group `i` (and returning Python `None` when the group did not participate). -/
def RMatch.group (m : RMatch) (i : Nat) : Except PyErr (Option String) :=
  match i with
  | 0 => .ok (some m.group0)
  | j + 1 =>
    match m.groups.get? j with
    | some g => .ok g
    | none => .error .indexError

/-- A regular-expression pattern from an intent definition, abstracted by
the semantics the Python `re` module gives it: either a compiled
case-insensitive search function or an uncompilable (malformed) pattern. -/
inductive Pattern where
  | ok (search : String → Option RMatch)
  | malformed

/-- The result of `re.search(p, t, re.IGNORECASE)` for a compilable
pattern, and `none` for a malformed one (used by the specification-side
score formula, which treats malformed patterns as non-matches). -/
def patSearch : Pattern → String → Option RMatch
  | .ok f, t => f t
  | .malformed, _ => none

/-- A compilable pattern. -/
def Pattern.isOk : Pattern → Bool
  | .ok _ => true
  | .malformed => false

/-- Values stored in `ConversationContext.user_data` (strings such as the
remembered name or birthday, or lists such as saved notes). -/
inductive UVal where
  | s (v : String)
  | l (vs : List String)
deriving DecidableEq, Repr

/-- The mutable per-session conversation state touched by the core:
`current_context` and `user_data`.  (History and the session start time
are only read by the out-of-scope I/O harness.) -/
structure BotState where
  current_context : Option String
  user_data : List (String × UVal)
deriving DecidableEq, Repr

/-- Lookup modelling `user_data.get(key)` — association lookup. -/
def BotState.getUserData (st : BotState) (k : String) : Option UVal :=
  (st.user_data.find? (fun kv => kv.1 == k)).map (·.2)

/-- Association-list update used to model `user_data[key] = value`. -/
def assocSet : List (String × UVal) → String → UVal → List (String × UVal)
  | [], k, v => [(k, v)]
  | kv :: rest, k, v =>
    if kv.1 == k then (k, v) :: rest else kv :: assocSet rest k v

/-- Update modelling `set_user_data(key, value)`. -/
def BotState.setUserData (st : BotState) (k : String) (v : UVal) : BotState :=
  { st with user_data := assocSet st.user_data k v }

/-- An intent action: a procedure receiving the chatbot state and the
classifier's match object, possibly mutating the state, returning an
optional direct response, and possibly raising. -/
abbrev ActionFn := BotState → Option RMatch → Except PyErr (Option String × BotState)

/-- An intent definition (the `Intent` dataclass common to both demos). -/
structure Intent where
  name : String
  patterns : List Pattern
  responses : List String
  keywords : List String
  context_set : Option String := none
  context_required : Option String := none
  action : Option ActionFn := none

/-- Python truthiness of an `Optional[str]`: `None` and `""` are falsy. -/
def truthyOpt (o : Option String) : Bool :=
  match o with
  | none => false
  | some s => !(s == "")

/-- Python `str.lower()` (ASCII), the model of `text.lower()` /
`str.toLower`: lowercase every character. -/
def pyLower (s : String) : String :=
  String.mk (s.data.map Char.toLower)

/-- Worker for `pySplit`: walk the characters, accumulating the current
word (reversed) and flushing it at whitespace. -/
def pySplitGo : List Char → List Char → List String
  | [], acc => if acc.isEmpty then [] else [String.mk acc.reverse]
  | c :: cs, acc =>
    if c.isWhitespace then
      (if acc.isEmpty then pySplitGo cs []
       else String.mk acc.reverse :: pySplitGo cs [])
    else pySplitGo cs (c :: acc)

/-- Python `str.split()` with no arguments: split on runs of whitespace,
discarding empty pieces. -/
def pySplit (s : String) : List String :=
  pySplitGo s.data []

/-- Worker for `pyReplace`: leftmost non-overlapping replacement of `pat`
by `rep` (fuel-driven; the fuel is always at least the length plus one). -/
def replaceGo : Nat → List Char → List Char → List Char → List Char
  | 0, s, _, _ => s
  | fuel + 1, s, pat, rep =>
    match s with
    | [] => []
    | c :: cs =>
      if pat.isPrefixOf s then rep ++ replaceGo fuel (s.drop pat.length) pat rep
      else c :: replaceGo fuel cs pat rep

/-- Python `str.replace(pat, rep)` for a nonempty `pat` (every placeholder
key is nonempty): replace all non-overlapping occurrences left to right. -/
def pyReplace (s pat rep : String) : String :=
  if pat.isEmpty then s
  else String.mk (replaceGo (s.data.length + 1) s.data pat.data rep.data)

/-- Python `str.strip()` with no arguments: drop leading and trailing
whitespace. -/
def pyStrip (s : String) : String :=
  String.mk (((s.data.dropWhile Char.isWhitespace).reverse.dropWhile
    Char.isWhitespace).reverse)

/-- Python `str.title()` (ASCII): the first letter of each alphanumeric
run is uppercased, the rest lowercased. -/
def pyTitleGo : List Char → Bool → List Char
  | [], _ => []
  | c :: cs, prevAlnum =>
    if c.isAlpha then
      (if prevAlnum then c.toLower else c.toUpper) :: pyTitleGo cs true
    else if c.isDigit then
      c :: pyTitleGo cs true
    else
      c :: pyTitleGo cs false

/-- Python `str.title()`. -/
def pyTitle (s : String) : String :=
  String.mk (pyTitleGo s.toList false)

/-- Number of distinct elements of `a` that also occur in `b` — the
cardinality of the set intersection used by `set(x) & set(y)` in Python. -/
def interCount (a b : List String) : Nat :=
  (a.dedup.filter (fun x => x ∈ b)).length

namespace SentimentAnalyzer

/-- Sentiment analysis result (`{'sentiment': ..., 'score': ...}`). -/
structure SentimentResult where
  sentiment : String
  score : ℚ
deriving DecidableEq, Repr

/-- Model of `SentimentAnalyzer.analyze` (identical in both demos, parameterized by
the positive/negative word sets, which Demo1 fixes inline and Demo2 loads
from configuration): tokenize the lowercased text into a set, count
overlaps with the two word sets, and bucket by the comparison. -/
def analyze (posW negW : List String) (text : String) : SentimentResult :=
  let words := (pySplit (pyLower text)).dedup
  let p : ℚ := ((words.filter (fun w => w ∈ posW)).length : ℚ)
  let n : ℚ := ((words.filter (fun w => w ∈ negW)).length : ℚ)
  if n < p then ⟨"positive", p / (p + n + 1)⟩
  else if p < n then ⟨"negative", -n / (p + n + 1)⟩
  else ⟨"neutral", 0⟩

/-- Demo1's inline `POSITIVE_WORDS` set. -/
def demo1PositiveWords : List String :=
  ["good", "great", "awesome", "excellent", "happy", "love", "wonderful",
   "fantastic", "amazing", "best", "nice", "thank", "thanks", "perfect",
   "beautiful", "brilliant", "exciting", "fun", "glad", "pleased"]

/-- Demo1's inline `NEGATIVE_WORDS` set. -/
def demo1NegativeWords : List String :=
  ["bad", "terrible", "awful", "horrible", "sad", "hate", "worst",
   "angry", "upset", "annoyed", "frustrated", "disappointed", "boring",
   "stupid", "dumb", "useless", "wrong", "fail", "failed", "problem"]

end SentimentAnalyzer

namespace Demo2

/-- Demo2 `_score_intent`, pattern loop: `+2.0` per matching pattern, a
malformed pattern is skipped by the `except re.error: continue`. -/
def patScore : List Pattern → String → ℚ
  | [], _ => 0
  | .malformed :: ps, tl => patScore ps tl
  | .ok f :: ps, tl => (if (f tl).isSome then 2 else 0) + patScore ps tl

/-- Demo2 `_score_intent`, keyword loop: `+0.5` for every entry of the
keyword list whose lowercased form occurs in the token set. -/
def kwScore (kws : List String) (tokens : List String) : ℚ :=
  ((kws.filter (fun k => pyLower k ∈ tokens)).length : ℚ) * (1 / 2)

/-- Demo2 `AdvancedChatbot._score_intent`. -/
def score_intent (i : Intent) (text : String) (cur : Option String) : ℚ :=
  let tl := pyLower text
  let s := patScore i.patterns tl + kwScore i.keywords (pySplit tl)
  if truthyOpt i.context_required then
    (if cur = i.context_required then s + 1 else s * (1 / 2))
  else s

end Demo2

namespace Demo1

/-- Demo1 `_score_intent`, pattern loop: no `try`/`except`, so a malformed
pattern raises `re.error` out of the scoring loop. -/
def patScore : List Pattern → String → Except PyErr ℚ
  | [], _ => .ok 0
  | .malformed :: _, _ => .error .reError
  | .ok f :: ps, tl =>
    match patScore ps tl with
    | .error e => .error e
    | .ok r => .ok ((if (f tl).isSome then 2 else 0) + r)

/-- Demo1 `AdvancedChatbot._score_intent`: patterns, then
`len(words & set(intent.keywords)) * 0.5`, then the context clause. -/
def score_intent (i : Intent) (text : String) (cur : Option String) :
    Except PyErr ℚ :=
  let tl := pyLower text
  match patScore i.patterns tl with
  | .error e => .error e
  | .ok ps =>
    let s := ps + (interCount (pySplit tl) i.keywords : ℚ) * (1 / 2)
    .ok (if truthyOpt i.context_required then
          (if cur = i.context_required then s + 1 else s * (1 / 2))
         else s)

end Demo1

namespace Demo2

/-- Demo2 `classify_intent`, inner pattern re-scan: the first pattern of
the new best intent that matches the lowercased text (malformed patterns
are skipped by `except re.error: continue`); `none` when no pattern
matches. -/
def firstMatch : List Pattern → String → Option RMatch
  | [], _ => none
  | .malformed :: ps, tl => firstMatch ps tl
  | .ok f :: ps, tl =>
    match f tl with
    | some m => some m
    | none => firstMatch ps tl

end Demo2

/-- The running-best loop shared by both `classify_intent` bodies,
factored over the per-intent score `f` and per-intent first-match scan
`g`: the best is replaced only on strict score improvement, and the best
match is overwritten only when the new best intent has a matching pattern. -/
def classifyStep (f : Intent → ℚ) (g : Intent → Option RMatch)
    (st : Option Intent × ℚ × Option RMatch) (i : Intent) :
    Option Intent × ℚ × Option RMatch :=
  if st.2.1 < f i then
    (some i, f i, match g i with | some m => some m | none => st.2.2)
  else st

/-- The shared `classify_intent` decision: fold the running best over the
catalog, then apply the `> 0.5` confidence threshold. -/
def classifyCore (f : Intent → ℚ) (g : Intent → Option RMatch)
    (cat : List Intent) : Option Intent × Option RMatch :=
  let st := cat.foldl (classifyStep f g) (none, 0, none)
  if (1 / 2 : ℚ) < st.2.1 then (st.1, st.2.2) else (none, none)

namespace Demo2

/-- Demo2 `AdvancedChatbot.classify_intent`. -/
def classify_intent (cat : List Intent) (text : String) (cur : Option String) :
    Option Intent × Option RMatch :=
  classifyCore (fun i => score_intent i text cur)
    (fun i => firstMatch i.patterns (pyLower text)) cat

end Demo2

namespace Demo1

/-- Demo1 `classify_intent`, inner pattern re-scan: no `try`/`except`, so
`re.search` on a malformed pattern raises `re.error` out of the scan. -/
def firstMatch : List Pattern → String → Except PyErr (Option RMatch)
  | [], _ => .ok none
  | .malformed :: _, _ => .error .reError
  | .ok f :: ps, tl =>
    match f tl with
    | some m => .ok (some m)
    | none => firstMatch ps tl

/-- Demo1 `classify_intent`, loop body in the `Except` monad. -/
def classifyGo (text : String) (cur : Option String) :
    List Intent → (Option Intent × ℚ × Option RMatch) →
    Except PyErr (Option Intent × ℚ × Option RMatch)
  | [], st => .ok st
  | i :: rest, st => do
    let s ← score_intent i text cur
    if st.2.1 < s then
      let fm ← firstMatch i.patterns (pyLower text)
      classifyGo text cur rest
        (some i, s, match fm with | some m => some m | none => st.2.2)
    else
      classifyGo text cur rest st

/-- Demo1 `AdvancedChatbot.classify_intent`. -/
def classify_intent (cat : List Intent) (text : String) (cur : Option String) :
    Except PyErr (Option Intent × Option RMatch) := do
  let st ← classifyGo text cur cat (none, 0, none)
  .ok (if (1 / 2 : ℚ) < st.2.1 then (st.1, st.2.2) else (none, none))

end Demo1

/-- Characters kept by the `_calculate` sanitizer
`re.sub(r"[^\d\+\-\*\/\.\(\)\s]", "", expression)`: digits, `+ - * /`,
decimal point, parentheses and whitespace. -/
def keepChar (c : Char) : Bool :=
  c.isDigit || c == '+' || c == '-' || c == '*' || c == '/' ||
  c == '.' || c == '(' || c == ')' || c.isWhitespace

/-- The `_calculate` sanitizer: strip every character outside the kept
alphabet. -/
def pySanitize (s : String) : String :=
  String.mk (s.toList.filter keepChar)

/-- A Python number: `int` or `float`.  Floats are modelled as exact
rationals (every evaluation the claims touch is exact). -/
inductive PyNum where
  | int (n : ℤ)
  | float (q : ℚ)
deriving DecidableEq, Repr

namespace PyNum

/-- Numeric value of a Python number. -/
def toRat : PyNum → ℚ
  | int n => (n : ℚ)
  | float q => q

/-- Python unary minus. -/
def neg : PyNum → PyNum
  | int n => int (-n)
  | float q => float (-q)

/-- Python `+` / `-` / `*`: int when both operands are ints (the
corresponding integer operation), float otherwise (`f` and `g` are
instantiated with the same operation on `ℚ` and `ℤ`). -/
def arith (f : ℚ → ℚ → ℚ) (g : ℤ → ℤ → ℤ) : PyNum → PyNum → PyNum
  | int a, int b => int (g a b)
  | a, b => float (f a.toRat b.toRat)

/-- Python `/`: always float, raising `ZeroDivisionError` on a zero
divisor. -/
def div (a b : PyNum) : Except PyErr PyNum :=
  if b.toRat = 0 then .error .zeroDivisionError
  else .ok (float (a.toRat / b.toRat))

/-- Rendering of an evaluation result inside the f-string
`f"The result of {expression} is **{result}**"`.  Ints render exactly;
the float rendering is a simplification of Python float `repr` (no claim
evaluates it on a float). -/
def render : PyNum → String
  | int n => toString n
  | float q => if q.den == 1 then toString q.num ++ ".0" else toString q

end PyNum

/-- Tokens of the sanitized arithmetic fragment accepted by `eval`. -/
inductive Tok where
  | num (v : PyNum)
  | plus
  | minus
  | star
  | slash
  | lparen
  | rparen
deriving DecidableEq, Repr

/-- Value of a digit run. -/
def digitsToNat (cs : List Char) : Nat :=
  cs.foldl (fun a c => a * 10 + (c.toNat - 48)) 0

/-- Lex a maximal run of digits and dots into a number token: no dot
gives an int, one dot (with at least one digit) a float, anything else is
a syntax error — matching CPython's outcome on the sanitized alphabet. -/
def numOfRun (run : List Char) : Except PyErr PyNum :=
  if !run.any Char.isDigit then .error .syntaxError
  else
    match run.splitOn '.' with
    | [ds] => .ok (.int (digitsToNat ds))
    | [ds, fs] =>
      .ok (.float ((digitsToNat ds : ℚ) + (digitsToNat fs : ℚ) / ((10 : ℚ) ^ fs.length)))
    | _ => .error .syntaxError

/-- Tokenizer for the sanitized arithmetic fragment (fuel-driven; the
fuel is always at least the number of characters plus one). -/
def pyLex : Nat → List Char → Except PyErr (List Tok)
  | 0, _ => .error .syntaxError
  | _, [] => .ok []
  | fuel + 1, c :: cs =>
    if c.isWhitespace then pyLex fuel cs
    else if c == '+' then do pure (.plus :: (← pyLex fuel cs))
    else if c == '-' then do pure (.minus :: (← pyLex fuel cs))
    else if c == '*' then do pure (.star :: (← pyLex fuel cs))
    else if c == '/' then do pure (.slash :: (← pyLex fuel cs))
    else if c == '(' then do pure (.lparen :: (← pyLex fuel cs))
    else if c == ')' then do pure (.rparen :: (← pyLex fuel cs))
    else if c.isDigit || c == '.' then do
      let run := (c :: cs).takeWhile (fun d => d.isDigit || d == '.')
      let rest := (c :: cs).dropWhile (fun d => d.isDigit || d == '.')
      let v ← numOfRun run
      pure (.num v :: (← pyLex fuel rest))
    else .error .syntaxError

mutual

/-- Additive level of the recursive-descent evaluator for the sanitized
arithmetic fragment of Python `eval`. -/
def parseE : Nat → List Tok → Except PyErr (PyNum × List Tok)
  | 0, _ => .error .syntaxError
  | fuel + 1, ts => do
    let (v, r) ← parseT fuel ts
    parseEL fuel v r

/-- Loop over `+`/`-` at the additive level. -/
def parseEL : Nat → PyNum → List Tok → Except PyErr (PyNum × List Tok)
  | 0, _, _ => .error .syntaxError
  | fuel + 1, v, ts =>
    match ts with
    | .plus :: ts' => do
      let (w, r) ← parseT fuel ts'
      parseEL fuel (PyNum.arith (· + ·) (· + ·) v w) r
    | .minus :: ts' => do
      let (w, r) ← parseT fuel ts'
      parseEL fuel (PyNum.arith (· - ·) (· - ·) v w) r
    | _ => .ok (v, ts)

/-- Multiplicative level. -/
def parseT : Nat → List Tok → Except PyErr (PyNum × List Tok)
  | 0, _ => .error .syntaxError
  | fuel + 1, ts => do
    let (v, r) ← parseF fuel ts
    parseTL fuel v r

/-- Loop over `*`/`/` at the multiplicative level. -/
def parseTL : Nat → PyNum → List Tok → Except PyErr (PyNum × List Tok)
  | 0, _, _ => .error .syntaxError
  | fuel + 1, v, ts =>
    match ts with
    | .star :: ts' => do
      let (w, r) ← parseF fuel ts'
      parseTL fuel (PyNum.arith (· * ·) (· * ·) v w) r
    | .slash :: ts' => do
      let (w, r) ← parseF fuel ts'
      let d ← PyNum.div v w
      parseTL fuel d r
    | _ => .ok (v, ts)

/-- Unary level: signs, numbers and parenthesized expressions. -/
def parseF : Nat → List Tok → Except PyErr (PyNum × List Tok)
  | 0, _ => .error .syntaxError
  | fuel + 1, ts =>
    match ts with
    | .minus :: ts' => do
      let (v, r) ← parseF fuel ts'
      pure (v.neg, r)
    | .plus :: ts' => parseF fuel ts'
    | .num v :: ts' => .ok (v, ts')
    | .lparen :: ts' => do
      let (v, r) ← parseE fuel ts'
      match r with
      | .rparen :: r' => pure (v, r')
      | _ => .error .syntaxError
    | _ => .error .syntaxError

end

/-- Python `eval` restricted to the sanitized arithmetic fragment
(numeric literals, `+ - * / ( )` and whitespace): lex then parse-evaluate,
any leftover input or failure raising. -/
def pyEvalStr (s : String) : Except PyErr PyNum := do
  let ts ← pyLex (s.length + 1) s.toList
  let (v, r) ← parseE (3 * ts.length + 3) ts
  if r.isEmpty then pure v else .error .syntaxError

/-- The fixed apology string returned by `_calculate` on any failure. -/
def calcApology : String :=
  "I couldn't calculate that. Please use a format like '5 + 3' or '10 * 2'."

/-- The body of the `try:` block of `_calculate` (identical in both
demos): pick `group(1)` when `lastindex` is truthy else `group(0)`,
sanitize, evaluate, and format the result. -/
def calcBody (m : Option RMatch) : Except PyErr String := do
  match m with
  | none => .error .attributeError
  | some mm =>
    let eopt ←
      match mm.lastindex with
      | some (_ + 1) => mm.group 1
      | _ => mm.group 0
    match eopt with
    | none => .error .typeError
    | some e0 =>
      let e := pySanitize e0
      let v ← pyEvalStr e
      let r := PyNum.render v
      pure ("The result of " ++ e ++ " is **" ++ r ++ "**")

/-- Model of `AdvancedChatbot._calculate` (identical in both demos): the whole body
runs under `try: ... except Exception:` returning the fixed apology. -/
def calculate (m : Option RMatch) : String :=
  match calcBody m with
  | .ok s => s
  | .error _ => calcApology

/-- The value of `datetime.now()` as far as `_fill_template` reads it:
wall-clock time, the weekday (0 = Monday, as Python's `%A` renders it),
and the calendar date. -/
structure PyDateTime where
  hour : Nat
  minute : Nat
  weekday : Nat
  month : Nat
  day : Nat
  year : Nat
deriving DecidableEq, Repr

/-- Zero-padding to two digits, as `strftime` does for `%I`, `%M`, `%d`. -/
def pad2 (n : Nat) : String :=
  if n < 10 then "0" ++ toString n else toString n

/-- Format `strftime("%I:%M %p")`: 12-hour zero-padded time with AM/PM. -/
def fmtTime (now : PyDateTime) : String :=
  let h12 := if now.hour % 12 == 0 then 12 else now.hour % 12
  pad2 h12 ++ ":" ++ pad2 now.minute ++ " " ++ (if now.hour < 12 then "AM" else "PM")

/-- Full weekday names used by `%A`. -/
def dayNames : List String :=
  ["Monday", "Tuesday", "Wednesday", "Thursday", "Friday", "Saturday", "Sunday"]

/-- Full month names used by `%B`. -/
def monthNames : List String :=
  ["January", "February", "March", "April", "May", "June", "July",
   "August", "September", "October", "November", "December"]

/-- Format `strftime("%A, %B %d, %Y")`: full weekday, month name, zero-padded
day, year. -/
def fmtDate (now : PyDateTime) : String :=
  (dayNames.getD now.weekday "") ++ ", " ++ (monthNames.getD (now.month - 1) "") ++
  " " ++ pad2 now.day ++ ", " ++ toString now.year

/-- Model of `get_user_data(key, default)` coerced to the string that
`str.replace` requires; a non-string stored value raises `TypeError` when
it reaches `response.replace` (as in Python). -/
def getUserStr (st : BotState) (k : String) (dflt : String) :
    Except PyErr String :=
  match st.getUserData k with
  | none => .ok dflt
  | some (.s v) => .ok v
  | some (.l _) => .error .typeError

namespace Demo2

/-- Demo2 `_fill_template`: sequential literal `str.replace` over the
five-placeholder dictionary in insertion order. -/
def fill_template (botName : String) (st : BotState) (now : PyDateTime)
    (response : String) : Except PyErr String := do
  let un ← getUserStr st "name" "friend"
  let ub ← getUserStr st "birthday" "unknown"
  let repl : List (String × String) :=
    [("\x7bbot_name\x7d", botName),
     ("\x7buser_name\x7d", un),
     ("\x7bcurrent_time\x7d", fmtTime now),
     ("\x7bcurrent_date\x7d", fmtDate now),
     ("\x7buser_birthday\x7d", ub)]
  pure (repl.foldl (fun r kv => pyReplace r kv.1 kv.2) response)

end Demo2

namespace Demo1

/-- Demo1 `_fill_template`: the same sequential literal replacement, but
its dictionary has only four placeholders — no `user_birthday` entry. -/
def fill_template (botName : String) (st : BotState) (now : PyDateTime)
    (response : String) : Except PyErr String := do
  let un ← getUserStr st "name" "friend"
  let repl : List (String × String) :=
    [("\x7bbot_name\x7d", botName),
     ("\x7buser_name\x7d", un),
     ("\x7bcurrent_time\x7d", fmtTime now),
     ("\x7bcurrent_date\x7d", fmtDate now)]
  pure (repl.foldl (fun r kv => pyReplace r kv.1 kv.2) response)

end Demo1

namespace Demo2

/-- Demo2 `store_name_action` (from `_create_store_name_action`): guarded
by `if match and match.lastindex and match.lastindex >= 1`, stores the
title-cased first capture, returns `None`. -/
def store_name_action : ActionFn := fun st m =>
  match m with
  | none => .ok (none, st)
  | some mm =>
    match mm.lastindex with
    | none => .ok (none, st)
    | some li =>
      if li == 0 then .ok (none, st)
      else
        match mm.group 1 with
        | .error e => .error e
        | .ok none => .error .attributeError
        | .ok (some nm) => .ok (none, st.setUserData "name" (.s (pyTitle nm)))

/-- Demo2 `store_birthday_action` (from `_create_store_birthday_action`):
guarded only by `if match and match.lastindex >= 1` — when `lastindex` is
`None` the comparison `None >= 1` raises `TypeError`. -/
def store_birthday_action : ActionFn := fun st m =>
  match m with
  | none => .ok (none, st)
  | some mm =>
    match mm.lastindex with
    | none => .error .typeError
    | some li =>
      if 1 ≤ li then
        match mm.group 1 with
        | .error e => .error e
        | .ok none => .error .attributeError
        | .ok (some b) => .ok (none, st.setUserData "birthday" (.s (pyStrip b)))
      else .ok (none, st)

end Demo2

namespace Demo1

/-- Demo1's `user_name` intent action,
`lambda self, match: self.context.set_user_data('name', match.group(1).title())`:
with no guard at all, a `None` match raises `AttributeError`. -/
def user_name_action : ActionFn := fun st m =>
  match m with
  | none => .error .attributeError
  | some mm =>
    match mm.group 1 with
    | .error e => .error e
    | .ok none => .error .attributeError
    | .ok (some nm) => .ok (none, st.setUserData "name" (.s (pyTitle nm)))

end Demo1

namespace Demo2

/-- The template-response arm of `get_response`: choose a response (via
the supplied model `pick` of `random.choice`), fill it, then perform the
turn's single context write — set to `context_set` when truthy, else
clear.  The returned counter records that exactly one write to
`current_context` happened on this path. -/
def respondNormal (botName : String) (pick : List String → String)
    (now : PyDateTime) (intent : Intent) (st : BotState) :
    Except PyErr (String × BotState × Nat) := do
  let response ← fill_template botName st now (pick intent.responses)
  let st' :=
    if truthyOpt intent.context_set then
      { st with current_context := intent.context_set }
    else
      { st with current_context := none }
  pure (response, st', 1)

/-- The `if action_result:` decision of `get_response`, given the state
after the action ran: a truthy (non-`None`, non-empty) action result is
template-filled and returned directly with no context write; otherwise
control falls through to the template-response arm. -/
def actionOutcome (botName : String) (pick : List String → String)
    (now : PyDateTime) (intent : Intent) (st' : BotState) :
    Option String → Except PyErr (String × BotState × Nat)
  | some s =>
    if s == "" then respondNormal botName pick now intent st'
    else do
      let f ← fill_template botName st' now s
      pure (f, st', 0)
  | none => respondNormal botName pick now intent st'

/-- The matched-intent arm of `get_response`: run the intent's action (if
any) against the state and the classifier's match object, then dispatch
on its result. -/
def respondIntent (botName : String) (pick : List String → String)
    (now : PyDateTime) (intent : Intent) (mOpt : Option RMatch)
    (st : BotState) : Except PyErr (String × BotState × Nat) :=
  match intent.action with
  | some act => do
    let ares ← act st mOpt
    actionOutcome botName pick now intent ares.2 ares.1
  | none => respondNormal botName pick now intent st

/-- Demo2 `AdvancedChatbot.get_response`, instrumented with a count of
writes to `current_context` (third component).  `pick` models
`random.choice`; `unknown` models the `unknown_responses` buckets;
sentiment is computed unconditionally as in the source. -/
def get_response (cat : List Intent) (botName : String)
    (unknown : String → List String) (pick : List String → String)
    (posW negW : List String) (now : PyDateTime) (st : BotState)
    (input : String) : Except PyErr (String × BotState × Nat) :=
  let cm := classify_intent cat input st.current_context
  let sentiment := SentimentAnalyzer.analyze posW negW input
  match cm.1 with
  | some intent => respondIntent botName pick now intent cm.2 st
  | none => .ok (pick (unknown sentiment.sentiment), st, 0)

end Demo2

/-- Modelled from the claim wording: the C1 score formula — `2.0` per
matching pattern, `0.5` per distinct keyword present in the whitespace
token set of the lowercased utterance, then the context bonus/penalty. -/
def scoreSpec (i : Intent) (text : String) (cur : Option String) : ℚ :=
  let tl := pyLower text
  let s := 2 * (i.patterns.countP (fun p => (patSearch p tl).isSome) : ℚ) +
           (interCount i.keywords (pySplit tl) : ℚ) * (1 / 2)
  if truthyOpt i.context_required then
    (if cur = i.context_required then s + 1 else s * (1 / 2))
  else s

/-- The score formula Demo2 actually implements: like `scoreSpec` but the
keyword term counts every occurrence in the keyword list (duplicates
double-count) and compares the lowercased keyword against the token set. -/
def scoreSpecD2 (i : Intent) (text : String) (cur : Option String) : ℚ :=
  let tl := pyLower text
  let s := 2 * (i.patterns.countP (fun p => (patSearch p tl).isSome) : ℚ) +
           (i.keywords.countP (fun k => pyLower k ∈ pySplit tl) : ℚ) * (1 / 2)
  if truthyOpt i.context_required then
    (if cur = i.context_required then s + 1 else s * (1 / 2))
  else s

/-- Test fixture: an intent whose keyword list contains a duplicate. -/
def c1DupIntent : Intent :=
  { name := "t", patterns := [], responses := ["r"], keywords := ["hi", "hi"] }

/-- Test fixture: a pattern-free intent with two keywords. -/
def c1wIntent : Intent :=
  { name := "w", patterns := [], responses := ["r"], keywords := ["good", "day"] }

/-- Test fixture: a pattern-free intent scoring `1.0` on `"good day"`. -/
def c2wIntent : Intent :=
  { name := "w2", patterns := [], responses := ["r"], keywords := ["good", "day"] }

/-- Test fixture: first of two identically scoring intents. -/
def c3wIntentA : Intent :=
  { name := "first", patterns := [], responses := ["r"], keywords := ["good", "day"] }

/-- Test fixture: second of two identically scoring intents. -/
def c3wIntentB : Intent :=
  { name := "second", patterns := [], responses := ["r"], keywords := ["good", "day"] }

/-- Test fixture: the match for the spec's arithmetic example, capture
group 1 holding `"5 + 3abc"`. -/
def c4Match5 : RMatch := ⟨"calculate 5 + 3abc", [some "5 + 3abc"], some 1⟩

/-- Test fixture: the match for the spec's injection example, capture
group 1 holding `"; rm -rf"`. -/
def c4MatchRm : RMatch := ⟨"calculate ; rm -rf", [some "; rm -rf"], some 1⟩

/-- Test fixture: an empty conversation state. -/
def c5State : BotState := ⟨none, []⟩

/-- Test fixture: a match object with no capture groups (as produced by a
groupless pattern such as `\bhello\b`), on which `lastindex` is `None`. -/
def c5Match : RMatch := ⟨"hello", [], none⟩

/-- Test fixture: an intent whose only pattern is uncompilable. -/
def c6BadIntent : Intent :=
  { name := "bad", patterns := [Pattern.malformed], responses := ["r"], keywords := [] }

/-- Test fixture: the response chooser modelling `random.choice` as
"first element". -/
def c7Pick : List String → String := fun l => l.headD ""

/-- Test fixture: a constant unknown-responses table. -/
def c7Unknown : String → List String := fun _ => ["dflt"]

/-- Test fixture: a fixed wall clock (Monday, January 15, 2024, 2:30 pm). -/
def c7Now : PyDateTime := ⟨14, 30, 0, 1, 15, 2024⟩

/-- Test fixture: an empty conversation state. -/
def c7State : BotState := ⟨none, []⟩

/-- Test fixture: an action-free, pattern-free intent scoring `1.0` on
`"good day"` via its two keywords, with a placeholder-free response. -/
def c7wIntent : Intent :=
  { name := "w7", patterns := [], responses := ["resp"], keywords := ["good", "day"] }

/-- Test fixture: a fixed wall clock (Monday, January 15, 2024, 2:30 pm). -/
def c8Now : PyDateTime := ⟨14, 30, 0, 1, 15, 2024⟩

/-- Test fixture: a state with no remembered facts. -/
def c8Empty : BotState := ⟨none, []⟩

/-- Test fixture: a state remembering a name and a birthday. -/
def c8Named : BotState :=
  ⟨none, [("name", .s "Alice"), ("birthday", .s "May 5")]⟩

/-- Substring occurrence test on character lists. -/
def hasSub : List Char → List Char → Bool
  | [], n => n.isEmpty
  | c :: rest, n => n.isPrefixOf (c :: rest) || hasSub rest n

/-- Test fixture: the compiled semantics of a groupless literal-word
pattern (such as `hello`) under `re.search`: a substring hit yields a
match whose `group(0)` is the word, with no capture groups and
`lastindex = None`. -/
def subPattern (needle : String) : Pattern :=
  .ok fun t => if hasSub t.data needle.data then some ⟨needle, [], none⟩ else none

/-- Test fixture: an earlier-declared intent matching `hello`. -/
def c10IntentB : Intent :=
  { name := "B", patterns := [subPattern "hello"], responses := ["rB"],
    keywords := ["hello"] }

/-- Test fixture: a later-declared intent whose pattern never matches the
utterance but whose six keywords outscore `c10IntentB`. -/
def c10IntentA : Intent :=
  { name := "A", patterns := [subPattern "xyzzy"], responses := ["rA"],
    keywords := ["a1", "a2", "a3", "a4", "a5", "a6"] }

/-- Test fixture: an utterance matching B's pattern and all of A's
keywords. -/
def c10Text : String := "hello a1 a2 a3 a4 a5 a6"

/-- Test fixture: an utterance matching only A's keywords. -/
def c10TextA : String := "a1 a2 a3 a4 a5 a6"

/-- Test fixture: the match object produced by B's `hello` pattern. -/
def c10HelloMatch : RMatch := ⟨"hello", [], none⟩

lemma interCount_card (a b : List String) :
    interCount a b = (a.toFinset ∩ b.toFinset).card := by
  have h1 : (a.dedup.filter (fun x => x ∈ b)).toFinset = a.toFinset ∩ b.toFinset := by
    ext x
    simp [List.mem_filter, List.mem_dedup]
  have h2 : (a.dedup.filter (fun x => x ∈ b)).Nodup :=
    (List.nodup_dedup a).filter _
  rw [interCount, ← List.toFinset_card_of_nodup h2, h1]

lemma interCount_comm (a b : List String) : interCount a b = interCount b a := by
  rw [interCount_card, interCount_card, Finset.inter_comm]

lemma d2PatScore_eq (ps : List Pattern) (tl : String) :
    Demo2.patScore ps tl = 2 * (ps.countP (fun p => (patSearch p tl).isSome) : ℚ) := by
  induction ps with
  | nil => simp [Demo2.patScore]
  | cons p ps ih =>
    cases p with
    | malformed =>
      simp [Demo2.patScore, ih, List.countP_cons, patSearch]
    | ok f =>
      simp only [Demo2.patScore, ih, List.countP_cons, patSearch]
      cases h : (f tl).isSome
      · simp [h]
      · simp only [h, if_true, Nat.cast_add, Nat.cast_one]; ring_nf

lemma d2KwScore_eq (kws toks : List String) :
    Demo2.kwScore kws toks = (kws.countP (fun k => pyLower k ∈ toks) : ℚ) * (1 / 2) := by
  rw [Demo2.kwScore, List.countP_eq_length_filter]

lemma demo2_score_eq_spec (i : Intent) (text : String) (cur : Option String) :
    Demo2.score_intent i text cur = scoreSpecD2 i text cur := by
  rw [Demo2.score_intent, scoreSpecD2, d2PatScore_eq, d2KwScore_eq]

lemma demo1PatScore_eq (ps : List Pattern) (tl : String)
    (h : ∀ p ∈ ps, p.isOk = true) :
    Demo1.patScore ps tl = .ok (2 * (ps.countP (fun p => (patSearch p tl).isSome) : ℚ)) := by
  induction ps with
  | nil => simp [Demo1.patScore]
  | cons p ps ih =>
    cases p with
    | malformed =>
      exact absurd (h _ (List.mem_cons_self _ _)) (by simp [Pattern.isOk])
    | ok f =>
      rw [Demo1.patScore, ih (fun q hq => h q (List.mem_cons_of_mem _ hq))]
      simp only [List.countP_cons, patSearch]
      cases hf : (f tl).isSome
      · simp [hf]
      · simp only [hf, if_true, Nat.cast_add, Nat.cast_one]; ring_nf

lemma demo1_score_eq_spec (i : Intent) (text : String) (cur : Option String)
    (h : ∀ p ∈ i.patterns, p.isOk = true) :
    Demo1.score_intent i text cur = .ok (scoreSpec i text cur) := by
  rw [Demo1.score_intent, scoreSpec, demo1PatScore_eq _ _ h,
    interCount_comm i.keywords]

lemma d2PatScore_nonneg (ps : List Pattern) (tl : String) :
    0 ≤ Demo2.patScore ps tl := by
  induction ps with
  | nil => simp [Demo2.patScore]
  | cons p ps ih =>
    cases p with
    | malformed => simpa [Demo2.patScore] using ih
    | ok f =>
      rw [Demo2.patScore]
      have : (0 : ℚ) ≤ (if (f tl).isSome then 2 else 0) := by positivity
      linarith

lemma ctxAdjust_nonneg (cr : Option String) (cur : Option String) (s : ℚ)
    (hs : 0 ≤ s) :
    0 ≤ (if truthyOpt cr then (if cur = cr then s + 1 else s * (1 / 2)) else s) := by
  split <;> [skip; exact hs]
  split <;> linarith

lemma demo2_score_nonneg (i : Intent) (text : String) (cur : Option String) :
    0 ≤ Demo2.score_intent i text cur := by
  rw [Demo2.score_intent]
  refine ctxAdjust_nonneg _ _ _ ?_
  have h1 := d2PatScore_nonneg i.patterns (pyLower text)
  have h2 : (0 : ℚ) ≤ Demo2.kwScore i.keywords (pySplit (pyLower text)) := by
    rw [Demo2.kwScore]; positivity
  linarith

lemma demo1PatScore_nonneg (ps : List Pattern) (tl : String) (r : ℚ)
    (h : Demo1.patScore ps tl = .ok r) : 0 ≤ r := by
  induction ps generalizing r with
  | nil =>
    simp only [Demo1.patScore, Except.ok.injEq] at h
    exact h ▸ le_refl 0
  | cons p rest ih =>
    cases p with
    | malformed => exact absurd h (by simp [Demo1.patScore])
    | ok f =>
      simp only [Demo1.patScore] at h
      cases hr : Demo1.patScore rest tl with
      | error e => rw [hr] at h; cases h
      | ok r0 =>
        rw [hr] at h
        simp only [Except.ok.injEq] at h
        have h1 := ih r0 hr
        have h2 : (0 : ℚ) ≤ (if (f tl).isSome then 2 else 0) := by positivity
        linarith [h ▸ add_nonneg h2 h1]

lemma classify_master (f : Intent → ℚ) (g : Intent → Option RMatch)
    (cat : List Intent) (init : Option Intent × ℚ × Option RMatch) :
    (cat.foldl (classifyStep f g) init = init ∧ ∀ i ∈ cat, f i ≤ init.2.1) ∨
    (∃ l₁ w l₂,
      cat = l₁ ++ w :: l₂ ∧
      (cat.foldl (classifyStep f g) init).1 = some w ∧
      (cat.foldl (classifyStep f g) init).2.1 = f w ∧
      init.2.1 < f w ∧
      (∀ j ∈ l₁, f j < f w) ∧
      (∀ j ∈ l₂, f j ≤ f w)) := by
  induction cat generalizing init with
  | nil => exact Or.inl ⟨rfl, by simp⟩
  | cons i l ih =>
    rw [List.foldl_cons]
    by_cases hlt : init.2.1 < f i
    · have hstep : classifyStep f g init i =
          (some i, f i, match g i with | some m => some m | none => init.2.2) := by
        rw [classifyStep, if_pos hlt]
      rw [hstep]
      rcases ih (some i, f i, match g i with | some m => some m | none => init.2.2) with
        ⟨heq, hall⟩ | ⟨l₁, w, l₂, hdec, h1, h2, h3, h4, h5⟩
      · refine Or.inr ⟨[], i, l, by simp, ?_, ?_, hlt, by simp, ?_⟩
        · rw [heq]
        · rw [heq]
        · intro j hj; exact hall j hj
      · refine Or.inr ⟨i :: l₁, w, l₂, by simp [hdec], h1, h2, lt_trans hlt h3, ?_, h5⟩
        intro j hj
        rcases List.mem_cons.mp hj with hj | hj
        · exact hj ▸ h3
        · exact h4 j hj
    · have hstep : classifyStep f g init i = init := by
        rw [classifyStep, if_neg hlt]
      push_neg at hlt
      rw [hstep]
      rcases ih init with ⟨heq, hall⟩ | ⟨l₁, w, l₂, hdec, h1, h2, h3, h4, h5⟩
      · refine Or.inl ⟨heq, ?_⟩
        intro j hj
        rcases List.mem_cons.mp hj with hj | hj
        · exact hj ▸ hlt
        · exact hall j hj
      · refine Or.inr ⟨i :: l₁, w, l₂, by simp [hdec], h1, h2, h3, ?_, h5⟩
        intro j hj
        rcases List.mem_cons.mp hj with hj | hj
        · exact hj ▸ lt_of_le_of_lt hlt h3
        · exact h4 j hj

lemma classifyCore_none_iff (f : Intent → ℚ) (g : Intent → Option RMatch)
    (cat : List Intent) :
    classifyCore f g cat = (none, none) ↔ ∀ i ∈ cat, f i ≤ 1 / 2 := by
  rw [classifyCore]
  rcases classify_master f g cat (none, 0, none) with
    ⟨heq, hall⟩ | ⟨l₁, w, l₂, hdec, h1, h2, h3, h4, h5⟩
  · rw [heq]
    norm_num
    intro i hi
    exact le_trans (hall i hi) (by norm_num)
  · by_cases hth : (1 / 2 : ℚ) < (cat.foldl (classifyStep f g) (none, 0, none)).2.1
    · rw [if_pos hth, h1]
      constructor
      · intro hcontra; exact absurd hcontra (by simp)
      · intro hall
        have : f w ≤ 1 / 2 := hall w (by rw [hdec]; exact List.mem_append_right _ (List.mem_cons_self _ _))
        rw [h2] at hth
        linarith
    · rw [if_neg hth]
      push_neg at hth
      rw [h2] at hth
      constructor
      · intro _ i hi
        rw [hdec] at hi
        rcases List.mem_append.mp hi with hi | hi
        · exact le_trans (le_of_lt (h4 i hi)) hth
        · rcases List.mem_cons.mp hi with hi | hi
          · exact hi ▸ hth
          · exact le_trans (h5 i hi) hth
      · intro _; rfl

lemma classifyCore_max (f : Intent → ℚ) (g : Intent → Option RMatch)
    (cat : List Intent) (i : Intent) (hi : i ∈ cat) (hs : 1 / 2 < f i) :
    ∃ w m, classifyCore f g cat = (some w, m) ∧ w ∈ cat ∧
      ∀ j ∈ cat, f j ≤ f w := by
  rcases classify_master f g cat (none, 0, none) with
    ⟨heq, hall⟩ | ⟨l₁, w, l₂, hdec, h1, h2, h3, h4, h5⟩
  · have h0 := hall i hi
    simp only at h0
    exact absurd h0 (by linarith)
  · have hwmem : w ∈ cat := by
      rw [hdec]; exact List.mem_append_right _ (List.mem_cons_self _ _)
    have hmax : ∀ j ∈ cat, f j ≤ f w := by
      intro j hj
      rw [hdec] at hj
      rcases List.mem_append.mp hj with hj | hj
      · exact le_of_lt (h4 j hj)
      · rcases List.mem_cons.mp hj with hj | hj
        · exact hj ▸ le_refl _
        · exact h5 j hj
    have hth : (1 / 2 : ℚ) < (cat.foldl (classifyStep f g) (none, 0, none)).2.1 := by
      rw [h2]; exact lt_of_lt_of_le hs (hmax i hi)
    refine ⟨w, (cat.foldl (classifyStep f g) (none, 0, none)).2.2, ?_, hwmem, hmax⟩
    rw [classifyCore, if_pos hth, h1]

lemma classifyCore_first (f : Intent → ℚ) (g : Intent → Option RMatch)
    (cat : List Intent) (w : Intent) (m : Option RMatch)
    (h : classifyCore f g cat = (some w, m)) :
    ∃ l₁ l₂, cat = l₁ ++ w :: l₂ ∧
      (∀ j ∈ l₁, f j < f w) ∧ (∀ j ∈ l₂, f j ≤ f w) := by
  rw [classifyCore] at h
  by_cases hth : (1 / 2 : ℚ) < (cat.foldl (classifyStep f g) (none, 0, none)).2.1
  · rw [if_pos hth] at h
    rcases classify_master f g cat (none, 0, none) with
      ⟨heq, _⟩ | ⟨l₁, w', l₂, hdec, h1, _, _, h4, h5⟩
    · rw [heq] at h; cases h
    · rw [h1] at h
      have hw : w' = w := by
        have := congrArg Prod.fst h
        simpa using this
      exact ⟨l₁, l₂, hw ▸ hdec, hw ▸ h4, hw ▸ h5⟩
  · rw [if_neg hth] at h
    cases h

lemma demo1_firstMatch_ok (ps : List Pattern) (tl : String)
    (h : ∀ p ∈ ps, p.isOk = true) :
    Demo1.firstMatch ps tl = .ok (Demo2.firstMatch ps tl) := by
  induction ps with
  | nil => rfl
  | cons p rest ih =>
    cases p with
    | malformed =>
      exact absurd (h _ (List.mem_cons_self _ _)) (by simp [Pattern.isOk])
    | ok f =>
      rw [Demo1.firstMatch, Demo2.firstMatch]
      cases f tl with
      | some m => rfl
      | none => exact ih (fun q hq => h q (List.mem_cons_of_mem _ hq))

lemma demo1_classifyGo_ok (text : String) (cur : Option String)
    (cat : List Intent) (st : Option Intent × ℚ × Option RMatch)
    (h : ∀ i ∈ cat, ∀ p ∈ i.patterns, p.isOk = true) :
    Demo1.classifyGo text cur cat st =
      .ok (cat.foldl (classifyStep (fun i => scoreSpec i text cur)
        (fun i => Demo2.firstMatch i.patterns (pyLower text))) st) := by
  induction cat generalizing st with
  | nil => rfl
  | cons i rest ih =>
    have hi := h i (List.mem_cons_self _ _)
    have hrest : ∀ j ∈ rest, ∀ p ∈ j.patterns, p.isOk = true :=
      fun j hj => h j (List.mem_cons_of_mem _ hj)
    rw [Demo1.classifyGo, demo1_score_eq_spec i text cur hi, List.foldl_cons,
      classifyStep]
    show (if st.2.1 < scoreSpec i text cur then _ else _) = _
    by_cases hlt : st.2.1 < scoreSpec i text cur
    · rw [if_pos hlt, if_pos hlt]
      rw [demo1_firstMatch_ok i.patterns (pyLower text) hi]
      show Demo1.classifyGo text cur rest _ = _
      exact ih _ hrest
    · rw [if_neg hlt, if_neg hlt]
      exact ih st hrest

lemma demo1_classify_erasure (cat : List Intent) (text : String)
    (cur : Option String)
    (h : ∀ i ∈ cat, ∀ p ∈ i.patterns, p.isOk = true) :
    Demo1.classify_intent cat text cur =
      .ok (classifyCore (fun i => scoreSpec i text cur)
        (fun i => Demo2.firstMatch i.patterns (pyLower text)) cat) := by
  rw [Demo1.classify_intent, demo1_classifyGo_ok text cur cat _ h]
  rfl

lemma demo1_score_nonneg (i : Intent) (text : String) (cur : Option String)
    (r : ℚ) (h : Demo1.score_intent i text cur = .ok r) : 0 ≤ r := by
  rw [Demo1.score_intent] at h
  cases hp : Demo1.patScore i.patterns (pyLower text) with
  | error e => rw [hp] at h; cases h
  | ok ps =>
    rw [hp] at h
    simp only [Except.ok.injEq] at h
    have hps := demo1PatScore_nonneg _ _ _ hp
    subst h
    refine ctxAdjust_nonneg _ _ _ ?_
    positivity

/-- C1 counterexample: the claim's score formula awards `0.5` per
*distinct* keyword, but Demo2's `_score_intent` iterates the keyword list
and awards `0.5` per occurrence, so an intent with keyword list
`["hi", "hi"]` scores `1.0` on utterance `"hi"` where the claimed formula
gives `0.5`. -/
theorem C1_counterexample :
    Demo2.score_intent c1DupIntent "hi" none = 1 ∧
    scoreSpec c1DupIntent "hi" none = 1 / 2 ∧
    Demo2.score_intent c1DupIntent "hi" none ≠ scoreSpec c1DupIntent "hi" none := by
  have h1 : Demo2.score_intent c1DupIntent "hi" none = 1 := by
    have hk : (c1DupIntent.keywords.filter
        (fun k => pyLower k ∈ pySplit (pyLower "hi"))).length = 2 := by decide
    rw [Demo2.score_intent, Demo2.kwScore, hk]
    norm_num [c1DupIntent, Demo2.patScore, truthyOpt]
  have h2 : scoreSpec c1DupIntent "hi" none = 1 / 2 := by
    have hk : interCount c1DupIntent.keywords (pySplit (pyLower "hi")) = 1 := by decide
    rw [scoreSpec, hk]
    norm_num [c1DupIntent, truthyOpt]
  exact ⟨h1, h2, by rw [h1, h2]; norm_num⟩

/-- C1 (amended): Demo1's `_score_intent` computes exactly the claimed
formula (`2.0` per matching pattern, `0.5` per distinct keyword present in
the token set of the lowercased utterance, then the context bonus or the
`×0.5` penalty) whenever its patterns compile; Demo2's computes the same
formula except that its keyword term counts every occurrence in the
keyword list (duplicates double-count) and lowercases the keyword before
the membership test.  Both scores are always nonnegative. -/
theorem C1_amended_score_formula :
    (∀ (i : Intent) (text : String) (cur : Option String),
        (∀ p ∈ i.patterns, p.isOk = true) →
        Demo1.score_intent i text cur = .ok (scoreSpec i text cur)) ∧
    (∀ (i : Intent) (text : String) (cur : Option String),
        Demo2.score_intent i text cur = scoreSpecD2 i text cur) ∧
    (∀ (i : Intent) (text : String) (cur : Option String),
        0 ≤ Demo2.score_intent i text cur) ∧
    (∀ (i : Intent) (text : String) (cur : Option String) (r : ℚ),
        Demo1.score_intent i text cur = .ok r → 0 ≤ r) :=
  ⟨demo1_score_eq_spec, demo2_score_eq_spec, demo2_score_nonneg, demo1_score_nonneg⟩

/-- Witness for C1 at a concrete intent and utterance. -/
theorem C1_witness :
    Demo1.score_intent c1wIntent "good day" none =
      .ok (scoreSpec c1wIntent "good day" none) ∧
    (0 : ℚ) ≤ Demo2.score_intent c1wIntent "good day" none :=
  ⟨C1_amended_score_formula.1 c1wIntent "good day" none
      (by intro p hp; simp [c1wIntent] at hp),
   C1_amended_score_formula.2.2.1 c1wIntent "good day" none⟩

/-- C2: `classify_intent` returns `(none, none)` exactly when every
intent scores at most `0.5`; when some intent scores strictly above `0.5`
the returned intent achieves the maximum score over the catalog.  Stated
for Demo2 directly, and for Demo1 under the proviso that all patterns
compile (otherwise Demo1's classifier raises instead of returning); under
that proviso Demo1's per-intent score is `scoreSpec` (C1). -/
theorem C2_threshold_and_max :
    ∀ (cat : List Intent) (text : String) (cur : Option String),
      ((Demo2.classify_intent cat text cur = (none, none) ↔
          ∀ i ∈ cat, Demo2.score_intent i text cur ≤ 1 / 2) ∧
        (∀ i ∈ cat, 1 / 2 < Demo2.score_intent i text cur →
          ∃ w m, Demo2.classify_intent cat text cur = (some w, m) ∧ w ∈ cat ∧
            ∀ j ∈ cat, Demo2.score_intent j text cur ≤ Demo2.score_intent w text cur)) ∧
      ((∀ i ∈ cat, ∀ p ∈ i.patterns, p.isOk = true) →
        ((Demo1.classify_intent cat text cur = .ok (none, none) ↔
            ∀ i ∈ cat, ∃ r, Demo1.score_intent i text cur = .ok r ∧ r ≤ 1 / 2) ∧
          (∀ i ∈ cat, 1 / 2 < scoreSpec i text cur →
            ∃ w m, Demo1.classify_intent cat text cur = .ok (some w, m) ∧ w ∈ cat ∧
              ∀ j ∈ cat, scoreSpec j text cur ≤ scoreSpec w text cur))) := by
  intro cat text cur
  constructor
  · constructor
    · exact classifyCore_none_iff _ _ cat
    · intro i hi hs
      exact classifyCore_max _ _ cat i hi hs
  · intro hok
    have her := demo1_classify_erasure cat text cur hok
    constructor
    · rw [her]
      constructor
      · intro h i hi
        have hcore := Except.ok.inj h
        have hle := (classifyCore_none_iff _ _ cat).mp hcore i hi
        exact ⟨scoreSpec i text cur,
          demo1_score_eq_spec i text cur (hok i hi), hle⟩
      · intro hall
        have : ∀ i ∈ cat, scoreSpec i text cur ≤ 1 / 2 := by
          intro i hi
          obtain ⟨r, hr, hle⟩ := hall i hi
          rw [demo1_score_eq_spec i text cur (hok i hi)] at hr
          exact (Except.ok.inj hr) ▸ hle
        rw [(classifyCore_none_iff _ _ cat).mpr this]
    · intro i hi hs
      obtain ⟨w, m, hcm, hwmem, hmax⟩ :=
        classifyCore_max (fun j => scoreSpec j text cur)
          (fun j => Demo2.firstMatch j.patterns (pyLower text)) cat i hi hs
      exact ⟨w, m, by rw [her, hcm], hwmem, hmax⟩

/-- Witness for C2 on a one-intent catalog where the score `1.0` beats
the threshold. -/
theorem C2_witness :
    ∃ w m, Demo2.classify_intent [c2wIntent] "good day" none = (some w, m) ∧
      w ∈ [c2wIntent] ∧
      ∀ j ∈ [c2wIntent],
        Demo2.score_intent j "good day" none ≤ Demo2.score_intent w "good day" none :=
  (C2_threshold_and_max [c2wIntent] "good day" none).1.2 c2wIntent
    (List.mem_singleton.mpr rfl)
    (by
      have hk : (c2wIntent.keywords.filter
          (fun k => pyLower k ∈ pySplit (pyLower "good day"))).length = 2 := by decide
      rw [Demo2.score_intent, Demo2.kwScore, hk]
      norm_num [c2wIntent, Demo2.patScore, truthyOpt])

/-- C3: the running best is replaced only on strict improvement, so the
returned winner is the earliest-declared intent achieving the maximum
score: every earlier intent scores strictly below it and every later
intent at most it.  Stated for Demo2 directly and for Demo1 (whose score
is `scoreSpec` by C1) under the all-patterns-compile proviso. -/
theorem C3_tie_break :
    ∀ (cat : List Intent) (text : String) (cur : Option String)
      (w : Intent) (m : Option RMatch),
      (Demo2.classify_intent cat text cur = (some w, m) →
        ∃ l₁ l₂, cat = l₁ ++ w :: l₂ ∧
          (∀ j ∈ l₁, Demo2.score_intent j text cur < Demo2.score_intent w text cur) ∧
          (∀ j ∈ l₂, Demo2.score_intent j text cur ≤ Demo2.score_intent w text cur)) ∧
      ((∀ i ∈ cat, ∀ p ∈ i.patterns, p.isOk = true) →
        Demo1.classify_intent cat text cur = .ok (some w, m) →
        ∃ l₁ l₂, cat = l₁ ++ w :: l₂ ∧
          (∀ j ∈ l₁, scoreSpec j text cur < scoreSpec w text cur) ∧
          (∀ j ∈ l₂, scoreSpec j text cur ≤ scoreSpec w text cur)) := by
  intro cat text cur w m
  constructor
  · intro h
    exact classifyCore_first _ _ cat w m h
  · intro hok h
    rw [demo1_classify_erasure cat text cur hok] at h
    exact classifyCore_first _ _ cat w m (Except.ok.inj h)

/-- Witness for C3: two intents tie at score `1.0` and the
earlier-declared one is returned. -/
theorem C3_witness :
    ∃ l₁ l₂, [c3wIntentA, c3wIntentB] = l₁ ++ c3wIntentA :: l₂ ∧
      (∀ j ∈ l₁, Demo2.score_intent j "good day" none <
        Demo2.score_intent c3wIntentA "good day" none) ∧
      (∀ j ∈ l₂, Demo2.score_intent j "good day" none ≤
        Demo2.score_intent c3wIntentA "good day" none) := by
  have hsA : Demo2.score_intent c3wIntentA "good day" none = 1 := by
    have hk : (c3wIntentA.keywords.filter
        (fun k => pyLower k ∈ pySplit (pyLower "good day"))).length = 2 := by decide
    rw [Demo2.score_intent, Demo2.kwScore, hk]
    norm_num [c3wIntentA, Demo2.patScore, truthyOpt]
  have hsB : Demo2.score_intent c3wIntentB "good day" none = 1 := by
    have hk : (c3wIntentB.keywords.filter
        (fun k => pyLower k ∈ pySplit (pyLower "good day"))).length = 2 := by decide
    rw [Demo2.score_intent, Demo2.kwScore, hk]
    norm_num [c3wIntentB, Demo2.patScore, truthyOpt]
  have hc : Demo2.classify_intent [c3wIntentA, c3wIntentB] "good day" none =
      (some c3wIntentA, none) := by
    rw [Demo2.classify_intent, classifyCore]
    simp only [List.foldl_cons, List.foldl_nil, classifyStep, hsA, hsB]
    norm_num [c3wIntentA, Demo2.firstMatch]
  exact (C3_tie_break [c3wIntentA, c3wIntentB] "good day" none c3wIntentA none).1 hc

/-- C4 counterexample: the sanitizer keeps whitespace and `-`, so the
capture `"; rm -rf"` sanitizes to `"  -"` (two spaces and a minus), not to
the empty string the claim asserts. -/
theorem C4_counterexample :
    pySanitize "; rm -rf" = "  -" ∧ pySanitize "; rm -rf" ≠ "" := by
  refine ⟨by decide, by decide⟩

/-- C4 (amended): `_calculate` strips every character outside
`[0-9 + - * / . ( ) whitespace]` and evaluates the rest; `"5 + 3abc"`
sanitizes to `"5 + 3"` and yields `8`; `"; rm -rf"` sanitizes to `"  -"`
(not the empty string), whose evaluation fails, and — as for every
evaluation failure — the fixed apology string is returned instead of an
exception propagating. -/
theorem C4_amended_calculate :
    pySanitize "5 + 3abc" = "5 + 3" ∧
    calculate (some c4Match5) = "The result of 5 + 3 is **8**" ∧
    pySanitize "; rm -rf" = "  -" ∧
    calculate (some c4MatchRm) = calcApology ∧
    (∀ (m : Option RMatch) (e : PyErr),
      calcBody m = .error e → calculate m = calcApology) := by
  refine ⟨by decide, by decide, by decide, by decide, ?_⟩
  intro m e h
  simp only [calculate, h]

/-- Witness for C4's universal conjunct: the injection capture makes
`calcBody` fail and the apology is returned. -/
theorem C4_witness : calculate (some c4MatchRm) = calcApology :=
  C4_amended_calculate.2.2.2.2 (some c4MatchRm) .syntaxError rfl

/-- C5 (the code contradicts it): Demo2's `store_birthday_action`
evaluates `match.lastindex >= 1` which raises `TypeError` when
`lastindex` is `None`, and Demo1's `user_name` action dereferences
`match.group(1)` on a `None` match raising `AttributeError`; both
exceptions escape the action uncaught instead of becoming an apology. -/
theorem C5_action_error_propagates :
    Demo2.store_birthday_action c5State (some c5Match) = .error .typeError ∧
    Demo1.user_name_action c5State none = .error .attributeError :=
  ⟨rfl, rfl⟩

/-- C6 counterexample: Demo1's `_score_intent` has no `try`/`except`, so
scoring an intent with a malformed pattern raises `re.error` instead of
skipping the pattern. -/
theorem C6_counterexample :
    Demo1.score_intent c6BadIntent "hello" none = .error .reError := rfl

lemma d2PatScore_middle (ps₁ ps₂ : List Pattern) (tl : String) :
    Demo2.patScore (ps₁ ++ Pattern.malformed :: ps₂) tl =
      Demo2.patScore (ps₁ ++ ps₂) tl := by
  induction ps₁ with
  | nil => simp [Demo2.patScore]
  | cons p rest ih => cases p <;> simp [Demo2.patScore, ih]

lemma d2FirstMatch_middle (ps₁ ps₂ : List Pattern) (tl : String) :
    Demo2.firstMatch (ps₁ ++ Pattern.malformed :: ps₂) tl =
      Demo2.firstMatch (ps₁ ++ ps₂) tl := by
  induction ps₁ with
  | nil => simp [Demo2.firstMatch]
  | cons p rest ih =>
    cases p with
    | malformed => simpa [Demo2.firstMatch] using ih
    | ok f =>
      rw [List.cons_append, Demo2.firstMatch, List.cons_append, Demo2.firstMatch]
      cases f tl with
      | some m => rfl
      | none => exact ih

lemma demo1PatScore_of_malformed (ps : List Pattern) (tl : String)
    (h : Pattern.malformed ∈ ps) :
    Demo1.patScore ps tl = .error .reError := by
  induction ps with
  | nil => cases h
  | cons p rest ih =>
    cases p with
    | malformed => rfl
    | ok f =>
      have hm : Pattern.malformed ∈ rest := by
        rcases List.mem_cons.mp h with h' | h'
        · cases h'
        · exact h'
      rw [Demo1.patScore, ih hm]

lemma demo1_score_of_malformed (i : Intent) (text : String)
    (cur : Option String) (h : Pattern.malformed ∈ i.patterns) :
    Demo1.score_intent i text cur = .error .reError := by
  rw [Demo1.score_intent, demo1PatScore_of_malformed _ _ h]

lemma demo1PatScore_error_reError (ps : List Pattern) (tl : String)
    (e : PyErr) (h : Demo1.patScore ps tl = .error e) : e = .reError := by
  induction ps generalizing e with
  | nil => rw [Demo1.patScore] at h; cases h
  | cons p rest ih =>
    cases p with
    | malformed => rw [Demo1.patScore] at h; cases h; rfl
    | ok f =>
      rw [Demo1.patScore] at h
      cases hr : Demo1.patScore rest tl with
      | ok r => rw [hr] at h; cases h
      | error e2 => rw [hr] at h; cases h; exact ih _ hr

lemma demo1_score_error_reError (i : Intent) (text : String)
    (cur : Option String) (e : PyErr)
    (h : Demo1.score_intent i text cur = .error e) : e = .reError := by
  rw [Demo1.score_intent] at h
  cases hp : Demo1.patScore i.patterns (pyLower text) with
  | ok r => rw [hp] at h; cases h
  | error e' =>
    rw [hp] at h
    cases h
    exact demo1PatScore_error_reError _ _ _ hp

lemma demo1FirstMatch_error_reError (ps : List Pattern) (tl : String)
    (e : PyErr) (h : Demo1.firstMatch ps tl = .error e) : e = .reError := by
  induction ps with
  | nil => rw [Demo1.firstMatch] at h; cases h
  | cons p rest ih =>
    cases p with
    | malformed => rw [Demo1.firstMatch] at h; cases h; rfl
    | ok f =>
      rw [Demo1.firstMatch] at h
      cases hf : f tl with
      | some m => rw [hf] at h; cases h
      | none => rw [hf] at h; exact ih h

lemma demo1_classifyGo_of_malformed (text : String) (cur : Option String)
    (cat : List Intent) (st : Option Intent × ℚ × Option RMatch)
    (h : ∃ i ∈ cat, Pattern.malformed ∈ i.patterns) :
    Demo1.classifyGo text cur cat st = .error .reError := by
  induction cat generalizing st with
  | nil => obtain ⟨i, hi, _⟩ := h; cases hi
  | cons j rest ih =>
    obtain ⟨i, hi, hm⟩ := h
    rcases List.mem_cons.mp hi with hij | hirest
    · subst hij
      rw [Demo1.classifyGo, demo1_score_of_malformed i text cur hm]
      rfl
    · rw [Demo1.classifyGo]
      cases hs : Demo1.score_intent j text cur with
      | error e =>
        rw [demo1_score_error_reError j text cur e hs]
        rfl
      | ok s =>
        show (if st.2.1 < s then _ else _) = _
        by_cases hlt : st.2.1 < s
        · rw [if_pos hlt]
          cases hf : Demo1.firstMatch j.patterns (pyLower text) with
          | error e =>
            rw [demo1FirstMatch_error_reError _ _ e hf]
            rfl
          | ok fm =>
            show Demo1.classifyGo text cur rest _ = _
            exact ih _ ⟨i, hirest, hm⟩
        · rw [if_neg hlt]
          exact ih st ⟨i, hirest, hm⟩

/-- C6 (amended): in Demo2 a malformed pattern is skipped without weight
or crash — deleting it from an intent's pattern list changes neither the
intent's score nor the classifier's pattern re-scan — while in Demo1 any
intent containing a malformed pattern makes `_score_intent`, and with it
`classify_intent` over any catalog containing such an intent, raise
`re.error`. -/
theorem C6_amended_malformed_handling :
    (∀ (nm : String) (ps₁ ps₂ : List Pattern) (rs kw : List String)
        (cs cr : Option String) (a : Option ActionFn)
        (text : String) (cur : Option String),
        Demo2.score_intent ⟨nm, ps₁ ++ Pattern.malformed :: ps₂, rs, kw, cs, cr, a⟩ text cur =
          Demo2.score_intent ⟨nm, ps₁ ++ ps₂, rs, kw, cs, cr, a⟩ text cur) ∧
    (∀ (ps₁ ps₂ : List Pattern) (tl : String),
        Demo2.firstMatch (ps₁ ++ Pattern.malformed :: ps₂) tl =
          Demo2.firstMatch (ps₁ ++ ps₂) tl) ∧
    (∀ (i : Intent) (text : String) (cur : Option String),
        Pattern.malformed ∈ i.patterns →
        Demo1.score_intent i text cur = .error .reError) ∧
    (∀ (cat : List Intent) (text : String) (cur : Option String),
        (∃ i ∈ cat, Pattern.malformed ∈ i.patterns) →
        Demo1.classify_intent cat text cur = .error .reError) := by
  refine ⟨?_, d2FirstMatch_middle, demo1_score_of_malformed, ?_⟩
  · intro nm ps₁ ps₂ rs kw cs cr a text cur
    rw [Demo2.score_intent, Demo2.score_intent]
    simp only [d2PatScore_middle]
  · intro cat text cur h
    rw [Demo1.classify_intent, demo1_classifyGo_of_malformed text cur cat _ h]
    rfl

/-- Witness for C6: classifying any utterance over a catalog containing
the malformed-pattern intent raises. -/
theorem C6_witness :
    Demo1.classify_intent [c6BadIntent] "x" none = .error .reError :=
  C6_amended_malformed_handling.2.2.2 [c6BadIntent] "x" none
    ⟨c6BadIntent, List.mem_singleton.mpr rfl, List.mem_singleton.mpr rfl⟩

lemma exceptBindOk {α β : Type} (a : α) (f : α → Except PyErr β) :
    Except.bind (.ok a) f = f a := rfl

lemma c7_fallback_eval :
    Demo2.get_response [] "Bot" c7Unknown c7Pick [] [] c7Now c7State "hello" =
      .ok ("dflt", c7State, 0) := by
  have hc : Demo2.classify_intent [] "hello" c7State.current_context = (none, none) := by
    rw [Demo2.classify_intent, classifyCore]
    norm_num
  simp only [Demo2.get_response, hc]
  rfl

/-- C7 counterexample: on a turn where no intent matches (here: the empty
catalog), `get_response` performs zero writes to `currentContext` — not
the "exactly one" the claim asserts (the write counter in the result's
third component is `0`). -/
theorem C7_counterexample :
    Demo2.get_response [] "Bot" c7Unknown c7Pick [] [] c7Now c7State "hello" =
      .ok ("dflt", c7State, 0) ∧ (0 : Nat) ≠ 1 :=
  ⟨c7_fallback_eval, by omega⟩

/-- C7 (amended): each successful turn writes `currentContext` at most
once.  No intent matched: zero writes, the state is returned unchanged.
An intent matched and its response comes from the template list (no
action, or the action returned a falsy result — `None` or `""`): exactly
one write, and the written value is the intent's `context_set` tag when
truthy, else the cleared context `None`.  The action short-circuited
with a truthy (non-`None`, non-empty) response: zero writes, the state
is returned exactly as the action left it. -/
theorem C7_amended_context_writes :
    ∀ (cat : List Intent) (botName : String) (unknown : String → List String)
      (pick : List String → String) (posW negW : List String)
      (now : PyDateTime) (st : BotState) (input : String)
      (r : String) (st' : BotState) (w : Nat),
      Demo2.get_response cat botName unknown pick posW negW now st input =
        .ok (r, st', w) →
      (w ≤ 1 ∧
        ((Demo2.classify_intent cat input st.current_context).1 = none →
          w = 0 ∧ st' = st) ∧
        (∀ i, (Demo2.classify_intent cat input st.current_context).1 = some i →
          (i.action = none →
            w = 1 ∧ st'.current_context =
              (if truthyOpt i.context_set then i.context_set else none)) ∧
          (∀ act, i.action = some act →
            ∀ res st2,
              act st (Demo2.classify_intent cat input st.current_context).2 =
                .ok (res, st2) →
              ((∃ s, res = some s ∧ s ≠ "") → w = 0 ∧ st' = st2) ∧
              ((res = none ∨ res = some "") →
                w = 1 ∧ st'.current_context =
                  (if truthyOpt i.context_set then i.context_set else none))))) := by
  intro cat botName unknown pick posW negW now st input r st' w h
  have hnormal : ∀ (intent : Intent) (st0 : BotState),
      Demo2.respondNormal botName pick now intent st0 = .ok (r, st', w) →
      w = 1 ∧ st'.current_context =
        (if truthyOpt intent.context_set then intent.context_set else none) := by
    intro intent st0 hn
    rw [Demo2.respondNormal] at hn
    cases hf : Demo2.fill_template botName st0 now (pick intent.responses) with
    | error e =>
      rw [hf] at hn
      have hn2 : (Except.error e : Except PyErr (String × BotState × Nat)) =
          .ok (r, st', w) := hn
      cases hn2
    | ok fl =>
      rw [hf] at hn
      have hn2 : Except.ok (fl,
          (if truthyOpt intent.context_set then
            { st0 with current_context := intent.context_set }
          else { st0 with current_context := none }), 1) =
          (.ok (r, st', w) : Except PyErr (String × BotState × Nat)) := hn
      simp only [Except.ok.injEq, Prod.mk.injEq] at hn2
      obtain ⟨-, hst, hw⟩ := hn2
      refine ⟨hw.symm, ?_⟩
      rw [← hst]
      by_cases hts : truthyOpt intent.context_set
      · rw [if_pos hts, if_pos hts]
      · rw [if_neg hts, if_neg hts]
  simp only [Demo2.get_response] at h
  cases hcm : (Demo2.classify_intent cat input st.current_context).1 with
  | none =>
    rw [hcm] at h
    simp only [Except.ok.injEq, Prod.mk.injEq] at h
    obtain ⟨-, hst, hw⟩ := h
    refine ⟨by omega, fun _ => ⟨hw.symm, hst.symm⟩, ?_⟩
    intro i hi
    cases hi
  | some intent =>
    rw [hcm] at h
    have h2 : Demo2.respondIntent botName pick now intent
        (Demo2.classify_intent cat input st.current_context).2 st =
        .ok (r, st', w) := h
    clear h
    rw [Demo2.respondIntent] at h2
    cases hact : intent.action with
    | none =>
      rw [hact] at h2
      have h3 : Demo2.respondNormal botName pick now intent st =
          .ok (r, st', w) := h2
      obtain ⟨hw1, hcc⟩ := hnormal intent st h3
      refine ⟨by omega, ?_, ?_⟩
      · intro h0; cases h0
      · intro i hi
        cases hi
        refine ⟨fun _ => ⟨hw1, hcc⟩, ?_⟩
        intro act hia
        rw [hact] at hia
        cases hia
    | some act =>
      rw [hact] at h2
      have h3 : Except.bind
          (act st (Demo2.classify_intent cat input st.current_context).2)
          (fun ares => Demo2.actionOutcome botName pick now intent ares.2 ares.1) =
          .ok (r, st', w) := h2
      clear h2
      cases ha : act st (Demo2.classify_intent cat input st.current_context).2 with
      | error e =>
        rw [ha] at h3
        have h4 : (Except.error e : Except PyErr (String × BotState × Nat)) =
            .ok (r, st', w) := h3
        cases h4
      | ok ares =>
        rw [ha, exceptBindOk] at h3
        have hchar :
            ((∃ s, ares.1 = some s ∧ s ≠ "") → w = 0 ∧ st' = ares.2) ∧
            ((ares.1 = none ∨ ares.1 = some "") →
              w = 1 ∧ st'.current_context =
                (if truthyOpt intent.context_set then intent.context_set
                 else none)) := by
          cases hres : ares.1 with
          | none =>
            rw [hres] at h3
            have h5 : Demo2.respondNormal botName pick now intent ares.2 =
                .ok (r, st', w) := h3
            refine ⟨?_, fun _ => hnormal intent ares.2 h5⟩
            rintro ⟨s, hs, -⟩
            cases hs
          | some s =>
            rw [hres] at h3
            have h5 : (if s == "" then
                Demo2.respondNormal botName pick now intent ares.2
              else Except.bind (Demo2.fill_template botName ares.2 now s)
                (fun f => Except.ok (f, ares.2, 0))) = .ok (r, st', w) := h3
            cases hs : (s == "") with
            | true =>
              have hse : s = "" := eq_of_beq hs
              rw [hs] at h5
              have h6 : Demo2.respondNormal botName pick now intent ares.2 =
                  .ok (r, st', w) := h5
              refine ⟨?_, fun _ => hnormal intent ares.2 h6⟩
              rintro ⟨s2, hs2, hne⟩
              have : s = s2 := Option.some.inj hs2
              exact absurd (this ▸ hse) hne
            | false =>
              rw [hs] at h5
              have h6 : Except.bind (Demo2.fill_template botName ares.2 now s)
                  (fun f => Except.ok (f, ares.2, 0)) = .ok (r, st', w) := h5
              cases hf : Demo2.fill_template botName ares.2 now s with
              | error e =>
                rw [hf] at h6
                have h7 : (Except.error e : Except PyErr (String × BotState × Nat)) =
                    .ok (r, st', w) := h6
                cases h7
              | ok fl =>
                rw [hf, exceptBindOk] at h6
                simp only [Except.ok.injEq, Prod.mk.injEq] at h6
                obtain ⟨-, hst2, hw0⟩ := h6
                refine ⟨fun _ => ⟨hw0.symm, hst2.symm⟩, ?_⟩
                rintro (hn | hsome)
                · cases hn
                · have hse : s = "" := Option.some.inj hsome
                  rw [hse] at hs
                  exact absurd hs (by simp)
        have hwle : w ≤ 1 := by
          cases hres : ares.1 with
          | none =>
            have := (hchar.2 (Or.inl hres)).1
            omega
          | some s =>
            by_cases hse : s = ""
            · have := (hchar.2 (Or.inr (hse ▸ hres))).1
              omega
            · have := (hchar.1 ⟨s, hres, hse⟩).1
              omega
        refine ⟨hwle, ?_, ?_⟩
        · intro h0; cases h0
        · intro i hi
          cases hi
          refine ⟨?_, ?_⟩
          · intro hia
            rw [hact] at hia
            cases hia
          · intro act2 hia2 res st2 hres2
            rw [hact] at hia2
            have hacteq : act = act2 := Option.some.inj hia2
            rw [← hacteq, ha] at hres2
            have hres3 : ares = (res, st2) := Except.ok.inj hres2
            subst hres3
            exact hchar

lemma c7_match_eval :
    Demo2.get_response [c7wIntent] "Bot" c7Unknown c7Pick [] [] c7Now c7State
      "good day" = .ok ("resp", ⟨none, []⟩, 1) := by
  have hs : Demo2.score_intent c7wIntent "good day" c7State.current_context = 1 := by
    have hk : (c7wIntent.keywords.filter
        (fun k => pyLower k ∈ pySplit (pyLower "good day"))).length = 2 := by decide
    rw [Demo2.score_intent, Demo2.kwScore, hk]
    norm_num [c7wIntent, Demo2.patScore, truthyOpt]
  have hc : Demo2.classify_intent [c7wIntent] "good day" c7State.current_context =
      (some c7wIntent, none) := by
    rw [Demo2.classify_intent, classifyCore]
    simp only [List.foldl_cons, List.foldl_nil, classifyStep, hs]
    norm_num [c7wIntent, Demo2.firstMatch]
  simp only [Demo2.get_response, hc]
  rfl

/-- Witness for C7 at a concrete matched turn: the action-free intent
`c7wIntent` matches `"good day"`, the response comes from its template
list, and the turn performs exactly one context write (a clear, since the
intent sets no context). -/
theorem C7_witness :
    (1 : Nat) ≤ 1 ∧
    ((Demo2.classify_intent [c7wIntent] "good day" c7State.current_context).1 =
        none → (1 : Nat) = 0 ∧ (⟨none, []⟩ : BotState) = c7State) ∧
    (∀ i, (Demo2.classify_intent [c7wIntent] "good day"
        c7State.current_context).1 = some i →
      (i.action = none →
        (1 : Nat) = 1 ∧ (⟨none, []⟩ : BotState).current_context =
          (if truthyOpt i.context_set then i.context_set else none)) ∧
      (∀ act, i.action = some act →
        ∀ res st2,
          act c7State (Demo2.classify_intent [c7wIntent] "good day"
            c7State.current_context).2 = .ok (res, st2) →
          ((∃ s, res = some s ∧ s ≠ "") →
            (1 : Nat) = 0 ∧ (⟨none, []⟩ : BotState) = st2) ∧
          ((res = none ∨ res = some "") →
            (1 : Nat) = 1 ∧ (⟨none, []⟩ : BotState).current_context =
              (if truthyOpt i.context_set then i.context_set else none)))) :=
  C7_amended_context_writes [c7wIntent] "Bot" c7Unknown c7Pick [] [] c7Now
    c7State "good day" "resp" ⟨none, []⟩ 1 c7_match_eval

/-- C8 counterexample: Demo1's `_fill_template` has no `user_birthday`
entry in its replacement dictionary, so `"{user_birthday}"` is left
verbatim instead of being substituted with the remembered birthday fact
(here defaulting to `"unknown"`) as the claim asserts. -/
theorem C8_counterexample :
    Demo1.fill_template "Bot" c8Empty c8Now "\x7buser_birthday\x7d" =
      .ok "\x7buser_birthday\x7d" ∧
    Demo1.fill_template "Bot" c8Empty c8Now "\x7buser_birthday\x7d" ≠
      .ok "unknown" := by
  refine ⟨rfl, ?_⟩
  intro h
  have h2 : ("\x7buser_birthday\x7d" : String) = "unknown" := Except.ok.inj h
  exact absurd h2 (by decide)

/-- C8 (amended): both fillers substitute `{bot_name}`, the remembered
name fact (default `"friend"`), the 12-hour time and the long date, and
leave unrecognized placeholders such as `{foo}` verbatim;
`fill("Hi {bot_name}!")` gives `"Hi Bot!"`.  Only Demo2 additionally
substitutes `{user_birthday}` (default `"unknown"`): Demo1 leaves that
placeholder verbatim. -/
theorem C8_amended_fill :
    Demo2.fill_template "Bot" c8Empty c8Now "Hi \x7bbot_name\x7d!" = .ok "Hi Bot!" ∧
    Demo1.fill_template "Bot" c8Empty c8Now "Hi \x7bbot_name\x7d!" = .ok "Hi Bot!" ∧
    Demo2.fill_template "Bot" c8Empty c8Now "\x7bfoo\x7d" = .ok "\x7bfoo\x7d" ∧
    Demo1.fill_template "Bot" c8Empty c8Now "\x7bfoo\x7d" = .ok "\x7bfoo\x7d" ∧
    Demo2.fill_template "Bot" c8Empty c8Now "\x7buser_name\x7d" = .ok "friend" ∧
    Demo2.fill_template "Bot" c8Named c8Now "\x7buser_name\x7d" = .ok "Alice" ∧
    Demo2.fill_template "Bot" c8Empty c8Now "\x7buser_birthday\x7d" = .ok "unknown" ∧
    Demo2.fill_template "Bot" c8Named c8Now "\x7buser_birthday\x7d" = .ok "May 5" ∧
    Demo2.fill_template "Bot" c8Empty c8Now "\x7bcurrent_time\x7d" = .ok "02:30 PM" ∧
    Demo2.fill_template "Bot" c8Empty c8Now "\x7bcurrent_date\x7d" =
      .ok "Monday, January 15, 2024" ∧
    Demo1.fill_template "Bot" c8Empty c8Now "\x7buser_birthday\x7d" =
      .ok "\x7buser_birthday\x7d" :=
  ⟨rfl, rfl, rfl, rfl, rfl, rfl, rfl, rfl, rfl, rfl, rfl⟩

/-- C9: `analyze` counts the overlaps `p` and `n` of the distinct
lowercased whitespace tokens with the two word sets (set intersection
cardinalities) and returns positive with `p/(p+n+1)` when `p > n`,
negative with `-n/(p+n+1)` when `n > p`, and neutral with `0` otherwise;
on Demo1's word sets, a text whose sentiment words are exactly
`good`/`great` scores `2/3` positive, and a text with no sentiment words
is neutral with score `0`. -/
theorem C9_sentiment :
    (∀ (posW negW : List String) (text : String),
      SentimentAnalyzer.analyze posW negW text =
        (let p := ((pySplit (pyLower text)).toFinset ∩ posW.toFinset).card
         let n := ((pySplit (pyLower text)).toFinset ∩ negW.toFinset).card
         if n < p then ⟨"positive", (p : ℚ) / ((p : ℚ) + (n : ℚ) + 1)⟩
         else if p < n then ⟨"negative", -(n : ℚ) / ((p : ℚ) + (n : ℚ) + 1)⟩
         else ⟨"neutral", 0⟩)) ∧
    SentimentAnalyzer.analyze SentimentAnalyzer.demo1PositiveWords
      SentimentAnalyzer.demo1NegativeWords "good great stuff" =
      ⟨"positive", 2 / 3⟩ ∧
    SentimentAnalyzer.analyze SentimentAnalyzer.demo1PositiveWords
      SentimentAnalyzer.demo1NegativeWords "the sky is blue" = ⟨"neutral", 0⟩ := by
  refine ⟨?_, ?_, ?_⟩
  · intro posW negW text
    have hp : ((pySplit (pyLower text)).dedup.filter (fun w => w ∈ posW)).length =
        ((pySplit (pyLower text)).toFinset ∩ posW.toFinset).card :=
      interCount_card _ _
    have hn : ((pySplit (pyLower text)).dedup.filter (fun w => w ∈ negW)).length =
        ((pySplit (pyLower text)).toFinset ∩ negW.toFinset).card :=
      interCount_card _ _
    simp only [SentimentAnalyzer.analyze, hp, hn, Nat.cast_lt]
  · have hp : ((pySplit (pyLower "good great stuff")).dedup.filter
        (fun w => w ∈ SentimentAnalyzer.demo1PositiveWords)).length = 2 := by decide
    have hn : ((pySplit (pyLower "good great stuff")).dedup.filter
        (fun w => w ∈ SentimentAnalyzer.demo1NegativeWords)).length = 0 := by decide
    simp only [SentimentAnalyzer.analyze, hp, hn]
    norm_num
  · have hp : ((pySplit (pyLower "the sky is blue")).dedup.filter
        (fun w => w ∈ SentimentAnalyzer.demo1PositiveWords)).length = 0 := by decide
    have hn : ((pySplit (pyLower "the sky is blue")).dedup.filter
        (fun w => w ∈ SentimentAnalyzer.demo1NegativeWords)).length = 0 := by decide
    simp only [SentimentAnalyzer.analyze, hp, hn]
    norm_num

/-- C10: the running best match is never reset when the running best
intent changes, so `classify_intent` can return intent A paired with a
match from earlier intent B's pattern although no pattern of A matches
the utterance (A winning on keywords alone: B scores 2.5, A scores 3.0),
and on a catalog where the winner has no matching pattern at all it
returns the winner paired with no match. -/
theorem C10_stale_match :
    (Demo2.classify_intent [c10IntentB, c10IntentA] c10Text none =
        (some c10IntentA, some c10HelloMatch) ∧
      Demo2.firstMatch c10IntentB.patterns (pyLower c10Text) = some c10HelloMatch ∧
      (c10IntentA.patterns.all
        (fun p => (patSearch p (pyLower c10Text)) == none)) = true) ∧
    Demo2.classify_intent [c10IntentA] c10TextA none = (some c10IntentA, none) := by
  have hsB : Demo2.score_intent c10IntentB c10Text none = 5 / 2 := by
    have hp : Demo2.patScore c10IntentB.patterns (pyLower c10Text) = 2 := by
      simp +decide [c10IntentB, subPattern, Demo2.patScore]
    have hk : (c10IntentB.keywords.filter
        (fun k => pyLower k ∈ pySplit (pyLower c10Text))).length = 1 := by decide
    rw [Demo2.score_intent, Demo2.kwScore, hp, hk]
    norm_num [c10IntentB, truthyOpt]
  have hsA : Demo2.score_intent c10IntentA c10Text none = 3 := by
    have hp : Demo2.patScore c10IntentA.patterns (pyLower c10Text) = 0 := by
      simp +decide [c10IntentA, subPattern, Demo2.patScore]
    have hk : (c10IntentA.keywords.filter
        (fun k => pyLower k ∈ pySplit (pyLower c10Text))).length = 6 := by decide
    rw [Demo2.score_intent, Demo2.kwScore, hp, hk]
    norm_num [c10IntentA, truthyOpt]
  have hsA' : Demo2.score_intent c10IntentA c10TextA none = 3 := by
    have hp : Demo2.patScore c10IntentA.patterns (pyLower c10TextA) = 0 := by
      simp +decide [c10IntentA, subPattern, Demo2.patScore]
    have hk : (c10IntentA.keywords.filter
        (fun k => pyLower k ∈ pySplit (pyLower c10TextA))).length = 6 := by decide
    rw [Demo2.score_intent, Demo2.kwScore, hp, hk]
    norm_num [c10IntentA, truthyOpt]
  have hfB : Demo2.firstMatch c10IntentB.patterns (pyLower c10Text) =
      some c10HelloMatch := by decide
  have hfA : Demo2.firstMatch c10IntentA.patterns (pyLower c10Text) = none := by
    decide
  have hfA' : Demo2.firstMatch c10IntentA.patterns (pyLower c10TextA) = none := by
    decide
  refine ⟨⟨?_, hfB, by decide⟩, ?_⟩
  · rw [Demo2.classify_intent, classifyCore]
    simp only [List.foldl_cons, List.foldl_nil, classifyStep, hsB, hsA, hfB, hfA]
    norm_num
  · rw [Demo2.classify_intent, classifyCore]
    simp only [List.foldl_cons, List.foldl_nil, classifyStep, hsA', hfA']
    norm_num

end Chatbot
